import Mathlib

/-!
# Verification of the lexcorp role-scoped access and data-partitioning model

Shallow embedding of the membership / invitation / scope-filter core of the
lexcorp contract-lifecycle application.  The external Supabase row store is
modelled as explicit Lean lists of rows; each service function is translated
from its TypeScript source, keeping the source's control flow and names.
JavaScript string-truthiness (`null`, `undefined`, `''` are falsy) is modelled
by `optTruthy` on `Option String` (`none` covers both `null` and `undefined`).
-/

/-- The `scope` parameter accepted by the list services
(`'all' | 'organization' | 'branch'` in the TypeScript source). -/
inductive ListScope where
  | all
  | organization
  | branch
deriving DecidableEq, Repr, BEq

/-- JavaScript truthiness of a `string | null | undefined` value:
`none` (null/undefined) and `some ""` are falsy. -/
def optTruthy : Option String → Bool
  | some s => !s.isEmpty
  | none => false

/-- The branch-office row filter a list service attaches to its query.
Each constructor corresponds to one Supabase filter combinator used by the
source (`eq`, `not is null`, `is null`, `or(eq, is null)`, or no filter). -/
inductive RowFilter where
  | eqBranch (b : String)
  | branchNotNull
  | branchIsNull
  | eqBranchOrNull (b : String)
  | noFilter
deriving DecidableEq, Repr

/-- Row-store semantics of a `RowFilter` against a row's nullable
`branch_office_id` column.  SQL `eq` against a NULL column is false. -/
def filterMatches (f : RowFilter) (rowBranch : Option String) : Bool :=
  match f with
  | .eqBranch b => rowBranch == some b
  | .branchNotNull => rowBranch.isSome
  | .branchIsNull => rowBranch.isNone
  | .eqBranchOrNull b => rowBranch == some b || rowBranch.isNone
  | .noFilter => true

/-- The branch filter built by `fetchVendors` (vendorService), mirroring its
`if (params.scope === 'branch') { if (params.branchOfficeId) eq else not-null }
else if (params.scope === 'organization') is-null
else if (params.branchOfficeId && params.scope !== 'all') or(eq, is-null)`
cascade. -/
def vendorScopeFilter : Option ListScope → Option String → RowFilter
  | some .branch, some b => if b.isEmpty then .branchNotNull else .eqBranch b
  | some .branch, none => .branchNotNull
  | some .organization, _ => .branchIsNull
  | scope, some b =>
      if !b.isEmpty && scope != some ListScope.all then .eqBranchOrNull b
      else .noFilter
  | _, none => .noFilter

/-- The branch filter built by `fetchProjects` (projectService); the source
repeats the same cascade as `fetchVendors` verbatim. -/
def projectScopeFilter : Option ListScope → Option String → RowFilter
  | some .branch, some b => if b.isEmpty then .branchNotNull else .eqBranch b
  | some .branch, none => .branchNotNull
  | some .organization, _ => .branchIsNull
  | scope, some b =>
      if !b.isEmpty && scope != some ListScope.all then .eqBranchOrNull b
      else .noFilter
  | _, none => .noFilter

/-- The five-case Scope Filter policy exactly as the specification's §4.2
table states it, first match wins; written from the spec's words (not the
source) to compare the services against.  A "concrete branch id" is a truthy
branch value; a scope of `all` matches none of the five conditions, so no
filter is added. -/
def specFiveCaseFilter (scope : Option ListScope) (branchOfficeId : Option String) : RowFilter :=
  if scope == some ListScope.branch && optTruthy branchOfficeId then
    .eqBranch (branchOfficeId.getD "")
  else if scope == some ListScope.branch then .branchNotNull
  else if scope == some ListScope.organization then .branchIsNull
  else if scope == none && optTruthy branchOfficeId then
    .eqBranchOrNull (branchOfficeId.getD "")
  else .noFilter

/-- A row of the `vendors` table (`VendorRow` in vendorService). -/
structure VendorRow where
  id : String
  organization_id : String
  branch_office_id : Option String
  name : String
  tin : String
  contact_email : Option String
  contact_phone : Option String
  notes : Option String
  documents : Option (List String)
  created_by : Option String
  created_at : String
  updated_at : String
deriving DecidableEq, Repr

/-- The `Vendor` domain record produced by `rowToVendor`. -/
structure Vendor where
  id : String
  organization_id : String
  branch_office_id : Option String
  name : String
  tin : String
  contact_email : Option String
  contact_phone : Option String
  notes : Option String
  documents : List String
  created_by : Option String
  created_at : String
  updated_at : String
deriving DecidableEq, Repr

/-- `rowToVendor` from vendorService: `documents` defaults to `[]` when the
stored column is not an array. -/
def rowToVendor (row : VendorRow) : Vendor :=
  { id := row.id
    organization_id := row.organization_id
    branch_office_id := row.branch_office_id
    name := row.name
    tin := row.tin
    contact_email := row.contact_email
    contact_phone := row.contact_phone
    notes := row.notes
    documents := row.documents.getD []
    created_by := row.created_by
    created_at := row.created_at
    updated_at := row.updated_at }

/-- `fetchVendors` over an explicit row store: equality filter on
`organization_id` plus the branch scope filter.  The `order by created_at`
clause is executed by the external store and does not affect which rows are
returned, so it is not modelled. -/
def fetchVendors (db : List VendorRow) (organizationId : String)
    (branchOfficeId : Option String) (scope : Option ListScope) : List Vendor :=
  ((db.filter fun r =>
      r.organization_id == organizationId &&
      filterMatches (vendorScopeFilter scope branchOfficeId) r.branch_office_id)).map
    rowToVendor

/-- A row of the `projects` table (`ProjectRow` in projectService). -/
structure ProjectRow where
  id : String
  organization_id : String
  branch_office_id : Option String
  name : String
  description : Option String
  status : String
  start_date : Option String
  end_date : Option String
  created_by : Option String
  created_at : String
  updated_at : String
deriving DecidableEq, Repr

/-- `rowToProject` is the identity reshaping in the source; the `Project`
domain record carries the same fields, so we reuse `ProjectRow` and model
`rowToProject` as the identity. -/
def rowToProject (row : ProjectRow) : ProjectRow := row

/-- `fetchProjects` over an explicit row store: organization equality filter,
branch scope filter, and the optional `in ('status', ...)` filter. -/
def fetchProjects (db : List ProjectRow) (organizationId : String)
    (branchOfficeId : Option String) (scope : Option ListScope)
    (statuses : List String) : List ProjectRow :=
  ((db.filter fun r =>
      r.organization_id == organizationId &&
      filterMatches (projectScopeFilter scope branchOfficeId) r.branch_office_id &&
      (statuses.isEmpty || statuses.contains r.status))).map
    rowToProject

/-- JavaScript `String.prototype.trim`, written over the character list so
that it evaluates by kernel reduction. -/
def jsTrim (s : String) : String :=
  String.mk (((s.data.dropWhile Char.isWhitespace).reverse.dropWhile
    Char.isWhitespace).reverse)

/-- JavaScript `String.prototype.toLowerCase` (ASCII case folding), written
over the character list so that it evaluates by kernel reduction. -/
def jsToLower (s : String) : String :=
  String.mk (s.data.map Char.toLower)

/-- JavaScript `x || null` on a `string | null` value: the empty string is
falsy and collapses to null. -/
def jsOrNull : Option String → Option String
  | some s => if s.isEmpty then none else some s
  | none => none

/-- JavaScript `x || null` on a plain string. -/
def strOrNull (s : String) : Option String :=
  if s.isEmpty then none else some s

/-- A row of the `agreements` table (`AgreementRow` in agreementService).
The jsonb collection columns (`sections`, `comments`, `audit_log`) are
modelled as optional lists of opaque entries, which is all the service
inspects of them. -/
structure AgreementRow where
  id : String
  organization_id : String
  branch_office_id : Option String
  project_id : Option String
  owner_user_id : Option String
  title : String
  counterparty : String
  department : Option String
  owner : Option String
  effective_date : Option String
  renewal_date : Option String
  value : Option Int
  risk_level : String
  status : String
  sections : Option (List String)
  tags : Option (List String)
  version : Option Int
  comments : Option (List String)
  audit_log : Option (List String)
  created_at : String
  updated_at : String
deriving DecidableEq, Repr

/-- The `Agreement` domain record the services hand to callers. -/
structure Agreement where
  id : String
  title : String
  counterparty : String
  branchOfficeId : Option String
  projectId : Option String
  department : String
  owner : String
  effectiveDate : String
  renewalDate : String
  value : Int
  riskLevel : String
  status : String
  sections : List String
  tags : List String
  version : Int
  createdAt : String
  updatedAt : String
  comments : List String
  auditLog : List String
deriving DecidableEq, Repr

/-- `rowToAgreement` from agreementService, with its `||`/`??` defaults. -/
def rowToAgreement (row : AgreementRow) : Agreement :=
  { id := row.id
    title := row.title
    counterparty := row.counterparty
    branchOfficeId := jsOrNull row.branch_office_id
    projectId := jsOrNull row.project_id
    department := row.department.getD ""
    owner := row.owner.getD ""
    effectiveDate := row.effective_date.getD ""
    renewalDate := row.renewal_date.getD ""
    value := row.value.getD 0
    riskLevel := row.risk_level
    status := row.status
    sections := row.sections.getD []
    tags := row.tags.getD []
    version := row.version.getD 1
    createdAt := row.created_at
    updatedAt := row.updated_at
    comments := row.comments.getD []
    auditLog := row.audit_log.getD [] }

/-- `fetchAgreementsForOrganization`: returns `[]` for a falsy organization
id; otherwise filters on `organization_id` and, only when the corresponding
option is truthy, adds plain `eq` filters on `branch_office_id` and
`project_id`.  (Unlike `fetchVendors`/`fetchProjects` there is no `scope`
parameter and no or-with-null branch case.) -/
def fetchAgreementsForOrganization (db : List AgreementRow) (organizationId : String)
    (branchOfficeId : Option String) (projectId : Option String) : List Agreement :=
  if organizationId.isEmpty then []
  else
    ((db.filter fun r =>
        r.organization_id == organizationId &&
        (!optTruthy branchOfficeId || r.branch_office_id == branchOfficeId) &&
        (!optTruthy projectId || r.project_id == projectId))).map
      rowToAgreement

/-- The upsert payload built by `upsertAgreementForOrganization`, written as
the stored row.  `created_at`/`updated_at` are produced by the store's
defaults and trigger and are passed in explicitly. -/
def agreementUpsertRow (agreement : Agreement) (organizationId : String)
    (ownerUserId : Option String) (createdAt updatedAt : String) : AgreementRow :=
  { id := agreement.id
    organization_id := organizationId
    owner_user_id := ownerUserId
    branch_office_id := agreement.branchOfficeId
    project_id := agreement.projectId
    title := agreement.title
    counterparty := agreement.counterparty
    department := some agreement.department
    owner := some agreement.owner
    effective_date := strOrNull agreement.effectiveDate
    renewal_date := strOrNull agreement.renewalDate
    value := some agreement.value
    risk_level := agreement.riskLevel
    status := agreement.status
    sections := some agreement.sections
    tags := some agreement.tags
    version := some agreement.version
    comments := some agreement.comments
    audit_log := some agreement.auditLog
    created_at := createdAt
    updated_at := updatedAt }

/-- `upsertAgreementForOrganization` against an explicit row store: the
payload row replaces the row with the same `id` (`onConflict: 'id'`) or is
appended, and the stored row is converted back through `rowToAgreement`. -/
def upsertAgreementForOrganization (db : List AgreementRow) (agreement : Agreement)
    (organizationId : String) (ownerUserId : Option String)
    (createdAt updatedAt : String) : List AgreementRow × Agreement :=
  let row := agreementUpsertRow agreement organizationId ownerUserId createdAt updatedAt
  let db1 :=
    if db.any (fun r => r.id == agreement.id) then
      db.map fun r => if r.id == agreement.id then row else r
    else db ++ [row]
  (db1, rowToAgreement row)

/-- Membership roles (`'org_admin' | 'branch_admin' | 'branch_user'`). -/
inductive Role where
  | org_admin
  | branch_admin
  | branch_user
deriving DecidableEq, Repr, BEq

/-- A row of the `organization_members` table. -/
structure MemberRow where
  id : String
  organization_id : String
  user_id : String
  role : Role
  branch_office_id : Option String
  department : Option String
deriving DecidableEq, Repr

/-- The payload `ensureMembership` receives. -/
structure MemberPayload where
  userId : String
  organizationId : String
  role : Role
  branchOfficeId : Option String := none
  department : Option String := none
deriving DecidableEq, Repr

/-- The `onConflict: 'user_id,organization_id'` key of the membership upsert. -/
def memberKeyMatches (p : MemberPayload) (r : MemberRow) : Bool :=
  r.user_id == p.userId && r.organization_id == p.organizationId

/-- `ensureMembership` (organizationService): upsert on the unique
(user_id, organization_id) key — an existing row with that key is updated in
place, otherwise a fresh row (with a store-generated id) is inserted. -/
def ensureMembership (db : List MemberRow) (newId : String) (p : MemberPayload) :
    List MemberRow :=
  if db.any (memberKeyMatches p) then
    db.map fun r =>
      if memberKeyMatches p r then
        { r with role := p.role, branch_office_id := p.branchOfficeId,
                 department := p.department }
      else r
  else
    db ++ [{ id := newId, organization_id := p.organizationId, user_id := p.userId,
             role := p.role, branch_office_id := p.branchOfficeId,
             department := p.department }]

/-- `fetchMembershipForUser` (organizationService): `maybeSingle` lookup of
the membership row by user id. -/
def fetchMembershipForUser (db : List MemberRow) (userId : String) : Option MemberRow :=
  db.find? fun r => r.user_id == userId

/-- A row of the `organizations` table (id and owning user). -/
structure OrgRow where
  id : String
  user_id : String
  name : String
deriving DecidableEq, Repr

/-- The membership-relevant slice of the row store seen by the auth context. -/
structure AuthDb where
  organizations : List OrgRow
  members : List MemberRow
deriving DecidableEq, Repr

/-- The auth-context state set by `hydrateMembership`
(organization id, member role, branch office id). -/
structure AuthView where
  organization : Option String
  memberRole : Option Role
  branchOfficeId : Option String
deriving DecidableEq, Repr

/-- `hydrateMembership` (AuthContext): reads the membership; when a user has
no membership row but owns an `organizations` row, synthesizes an org_admin
membership through `ensureMembership` (write-through repair); otherwise
leaves the store untouched.  `newMemberId` stands for the store-generated id
of a newly inserted membership row. -/
def hydrateMembership (db : AuthDb) (userId : String) (newMemberId : String) :
    AuthDb × AuthView :=
  match fetchMembershipForUser db.members userId with
  | some m =>
      (db, { organization := some m.organization_id, memberRole := some m.role,
             branchOfficeId := m.branch_office_id })
  | none =>
      match db.organizations.find? (fun o => o.user_id == userId) with
      | some org =>
          ({ db with
              members := ensureMembership db.members newMemberId
                { userId := userId, organizationId := org.id, role := .org_admin } },
           { organization := some org.id, memberRole := some .org_admin,
             branchOfficeId := none })
      | none =>
          (db, { organization := none, memberRole := none, branchOfficeId := none })

/-- Invite roles (`'branch_admin' | 'branch_user'`). -/
inductive InviteRole where
  | branch_admin
  | branch_user
deriving DecidableEq, Repr, BEq

/-- Invite lifecycle states (`'pending' | 'accepted' | 'revoked'`). -/
inductive InviteStatus where
  | pending
  | accepted
  | revoked
deriving DecidableEq, Repr, BEq

/-- A row of the `branch_invites` table. -/
structure InviteRow where
  id : String
  organization_id : String
  branch_office_id : String
  email : String
  invite_token : String
  role : InviteRole
  status : InviteStatus
  user_id : Option String
  full_name : Option String
  department : Option String
  title : Option String
  contact_email : Option String
deriving DecidableEq, Repr

/-- `fetchInviteByToken` (organizationService): `maybeSingle` lookup by
`invite_token`, with no filter on `status`. -/
def fetchInviteByToken (invites : List InviteRow) (token : String) : Option InviteRow :=
  invites.find? fun r => r.invite_token == token

/-- `markInviteAccepted` (organizationService): update by invite id, setting
`status = 'accepted'` and the accepting user id. -/
def markInviteAccepted (invites : List InviteRow) (inviteId : String) (userId : String) :
    List InviteRow :=
  invites.map fun r =>
    if r.id == inviteId then { r with status := .accepted, user_id := some userId }
    else r

/-- Outcome of `loadInvite` in the BranchInvite view: either one of its two
error messages, or the invite details that render the acceptance form. -/
inductive LoadInviteResult where
  | notFoundOrRevoked
  | alreadyAccepted
  | ready (invite : InviteRow)
deriving DecidableEq, Repr

/-- `loadInvite` (BranchInvite view): missing invite surfaces "could not be
found or has been revoked"; status `accepted` surfaces "already accepted";
anything else renders the acceptance form. -/
def loadInvite (invites : List InviteRow) (token : String) : LoadInviteResult :=
  match fetchInviteByToken invites token with
  | none => .notFoundOrRevoked
  | some invite =>
      if invite.status == .accepted then .alreadyAccepted else .ready invite

/-- The invite/membership slice of the row store used by invite acceptance. -/
structure InviteStore where
  invites : List InviteRow
  members : List MemberRow
deriving DecidableEq, Repr

/-- `handleAccept` (BranchInvite view), after a successful sign-up for
`newUserId`: creates the membership via `ensureMembership` (role and branch
copied from the invite) and then marks the invite accepted. -/
def handleAccept (st : InviteStore) (invite : InviteRow) (newUserId newMemberId : String) :
    InviteStore :=
  let members := ensureMembership st.members newMemberId
    { userId := newUserId
      organizationId := invite.organization_id
      role := if invite.role == .branch_user then .branch_user else .branch_admin
      branchOfficeId := some invite.branch_office_id
      department := jsOrNull invite.department }
  { invites := markInviteAccepted st.invites invite.id newUserId, members := members }

/-- The user-visible outcome of an acceptance attempt. -/
inductive AcceptOutcome where
  | surfacedNotFoundOrRevoked
  | surfacedAlreadyAccepted
  | accountCreated
deriving DecidableEq, Repr

/-- The acceptance pipeline of the BranchInvite view: the form (and hence
`handleAccept`) only runs when `loadInvite` produced invite details. -/
def acceptInvite (st : InviteStore) (token : String) (newUserId newMemberId : String) :
    InviteStore × AcceptOutcome :=
  match loadInvite st.invites token with
  | .notFoundOrRevoked => (st, .surfacedNotFoundOrRevoked)
  | .alreadyAccepted => (st, .surfacedAlreadyAccepted)
  | .ready invite => (handleAccept st invite newUserId newMemberId, .accountCreated)

/-- The `'organization' | 'branch'` choice offered by the template and
resource creation forms. -/
inductive FormScope where
  | organization
  | branch
deriving DecidableEq, Repr, BEq

/-- The template metadata held in the TemplateBuilder form state. -/
structure TemplateMeta where
  name : String
  description : String
  visibility : FormScope
deriving DecidableEq, Repr

/-- The template payload `handleSave` passes to `saveTemplate`. -/
structure TemplatePayload where
  id : String
  organization_id : String
  branch_office_id : Option String
  name : String
  description : String
  visibility : FormScope
  sections : List String
  created_by : String
deriving DecidableEq, Repr

/-- `handleSave` (TemplateBuilder view): a non-org-admin's visibility is
overridden to `branch`; the branch target is the caller's own branch context
and is required for branch visibility; the resulting payload is handed to
`saveTemplate` for persistence. -/
def handleSaveTemplate (memberRole : Option Role) (templateMeta : TemplateMeta)
    (branchOfficeId : Option String) (organizationId : String) (userId : String)
    (templateId : String) (draft : List String) : Except String TemplatePayload :=
  if (jsTrim templateMeta.name).isEmpty then .error "Template name is required."
  else
    let isOrgAdmin := memberRole == some Role.org_admin
    let effectiveVisibility :=
      if isOrgAdmin then templateMeta.visibility else FormScope.branch
    let branchTarget :=
      if effectiveVisibility == FormScope.branch then branchOfficeId else none
    if effectiveVisibility == FormScope.branch && !optTruthy branchTarget then
      .error "Branch templates require a branch office context."
    else
      .ok { id := templateId
            organization_id := organizationId
            branch_office_id := branchTarget
            name := jsTrim templateMeta.name
            description := jsTrim templateMeta.description
            visibility := effectiveVisibility
            sections := draft
            created_by := userId }

/-- The VendorManager create-vendor form state (`FormState`); an unset branch
choice is the empty string. -/
structure VendorFormState where
  name : String
  tin : String
  contactEmail : String
  contactPhone : String
  notes : String
  scope : FormScope
  branchOfficeId : String
deriving DecidableEq, Repr

/-- The insert payload `createVendor` (vendorService) writes. -/
structure CreateVendorPayload where
  organization_id : String
  branch_office_id : Option String
  name : String
  tin : String
  contact_email : Option String
  contact_phone : Option String
  notes : Option String
  documents : List String
  created_by : Option String
deriving DecidableEq, Repr

/-- The create-vendor submit handler of the VendorManager view
(`handleCreateVendor`): validates the form, then forces the branch
assignment to the caller's own branch unless the caller is an org admin. -/
def handleCreateVendor (isOrgAdmin : Bool) (authBranchOfficeId : Option String)
    (organizationId : String) (userId : Option String) (form : VendorFormState) :
    Except String CreateVendorPayload :=
  if (jsTrim form.name).isEmpty || (jsTrim form.tin).isEmpty then
    .error "Vendor name and TIN are required."
  else if form.scope == FormScope.branch &&
      !(!form.branchOfficeId.isEmpty || optTruthy authBranchOfficeId) then
    .error "Select a branch to assign this vendor."
  else
    let branchAssignment : Option String :=
      if isOrgAdmin then
        if form.scope == FormScope.organization then none
        else strOrNull form.branchOfficeId
      else authBranchOfficeId
    .ok { organization_id := organizationId
          branch_office_id := branchAssignment
          name := jsTrim form.name
          tin := jsTrim form.tin
          contact_email := strOrNull (jsTrim form.contactEmail)
          contact_phone := strOrNull (jsTrim form.contactPhone)
          notes := strOrNull (jsTrim form.notes)
          documents := []
          created_by := userId }

/-- The quick-add vendor form of the AgreementGenerator view. -/
structure QuickVendorForm where
  name : String
  tin : String
  scope : FormScope
  branchOfficeId : String
  contactEmail : String
deriving DecidableEq, Repr

/-- `handleQuickVendorSave` (AgreementGenerator view): same branch-assignment
rule as the VendorManager handler, with the branch-required validation
performed on the computed assignment. -/
def handleQuickVendorSave (isOrgAdmin : Bool) (authBranchOfficeId : Option String)
    (organizationId : String) (userId : Option String) (form : QuickVendorForm) :
    Except String CreateVendorPayload :=
  if (jsTrim form.name).isEmpty || (jsTrim form.tin).isEmpty then
    .error "Vendor name and TIN are required."
  else
    let branchAssignment : Option String :=
      if isOrgAdmin then
        if form.scope == FormScope.organization then none
        else strOrNull form.branchOfficeId
      else authBranchOfficeId
    if form.scope == FormScope.branch && !optTruthy branchAssignment then
      .error "Assign a branch to create this vendor."
    else
      .ok { organization_id := organizationId
            branch_office_id := branchAssignment
            name := jsTrim form.name
            tin := jsTrim form.tin
            contact_email := strOrNull (jsTrim form.contactEmail)
            contact_phone := none
            notes := none
            documents := []
            created_by := userId }

/-- The quick-add project form of the AgreementGenerator view. -/
structure QuickProjectForm where
  name : String
  description : String
  scope : FormScope
  branchOfficeId : String
deriving DecidableEq, Repr

/-- The insert payload `createProject` (projectService) writes. -/
structure CreateProjectPayload where
  organization_id : String
  branch_office_id : Option String
  name : String
  description : Option String
  status : String
  created_by : Option String
deriving DecidableEq, Repr

/-- `handleQuickProjectSave` (AgreementGenerator view): the same forced
branch-assignment rule, producing a `createProject` payload. -/
def handleQuickProjectSave (isOrgAdmin : Bool) (authBranchOfficeId : Option String)
    (organizationId : String) (userId : Option String) (form : QuickProjectForm) :
    Except String CreateProjectPayload :=
  if (jsTrim form.name).isEmpty then .error "Project name is required."
  else
    let branchAssignment : Option String :=
      if isOrgAdmin then
        if form.scope == FormScope.organization then none
        else strOrNull form.branchOfficeId
      else authBranchOfficeId
    if form.scope == FormScope.branch && !optTruthy branchAssignment then
      .error "Assign a branch to create this project."
    else
      .ok { organization_id := organizationId
            branch_office_id := branchAssignment
            name := jsTrim form.name
            description := strOrNull (jsTrim form.description)
            status := "active"
            created_by := userId }

/-- The per-vendor document cap (`MAX_DOCUMENTS` in VendorManager). -/
def MAX_DOCUMENTS : Nat := 3

/-- A file selected for upload. -/
structure UploadFile where
  name : String
  mime : String
deriving DecidableEq, Repr

/-- Observable outcome of `handleUploadDocuments`: which files were sent to
the object store, the vendor's stored document list afterwards, and the
surfaced error, if any. -/
structure UploadDocumentsResult where
  uploadedFiles : List String
  storedDocuments : List String
  docError : Option String
deriving DecidableEq, Repr

/-- `handleUploadDocuments` (VendorManager view): an empty selection returns
immediately; a batch that would push the document count above
`MAX_DOCUMENTS` is rejected before any upload or write; otherwise every file
is uploaded and the extended list is written back.  `mkDoc` stands for the
document record built from each upload (fresh id, returned URL, timestamp). -/
def handleUploadDocuments (mkDoc : UploadFile → String)
    (vendorDocuments : List String) (files : List UploadFile) :
    UploadDocumentsResult :=
  if files.isEmpty then
    { uploadedFiles := [], storedDocuments := vendorDocuments, docError := none }
  else if vendorDocuments.length + files.length > MAX_DOCUMENTS then
    { uploadedFiles := [], storedDocuments := vendorDocuments
      docError := some "You can upload up to 3 files per vendor." }
  else
    { uploadedFiles := files.map (fun f => f.name)
      storedDocuments := vendorDocuments ++ files.map mkDoc
      docError := none }

/-- UI-visible result of `handleCreateInvite` in the OfficeManager view. -/
structure CreateInviteUiResult where
  invites : List InviteRow
  inviteLink : Option String
  inviteError : Option String
deriving DecidableEq, Repr

/-- `handleCreateInvite` (OfficeManager view) on the path where the invite
row insert succeeds: the row is inserted with the store's `'pending'` status
default, the raw link is surfaced, and then the best-effort email dispatch
runs — its failure (`emailOk = false`) only sets a warning message and never
removes the invite or the link. -/
def handleCreateInvite (invites : List InviteRow) (origin organizationId branchOfficeId : String)
    (inviteEmail : String) (token newId : String) (emailOk : Bool) :
    CreateInviteUiResult :=
  if inviteEmail.isEmpty then
    { invites := invites, inviteLink := none
      inviteError := some "Email is required to invite an admin." }
  else
    let row : InviteRow :=
      { id := newId
        organization_id := organizationId
        branch_office_id := branchOfficeId
        email := jsToLower (jsTrim inviteEmail)
        invite_token := token
        role := .branch_admin
        status := .pending
        user_id := none
        full_name := none
        department := none
        title := none
        contact_email := some (jsToLower (jsTrim inviteEmail)) }
    let link := origin ++ "/#/invite/" ++ token
    { invites := invites ++ [row]
      inviteLink := some link
      inviteError :=
        if emailOk then none
        else some "Invite saved, but email delivery failed. Copy the link below and share it manually." }

/-! ## Shared helper lemmas -/

theorem vendorScopeFilter_eq_spec (scope : Option ListScope) (b : Option String) :
    vendorScopeFilter scope b = specFiveCaseFilter scope b := by
  rcases b with _ | bv
  · rcases scope with _ | s
    · rfl
    · cases s <;> rfl
  · by_cases h : bv.isEmpty <;>
      rcases scope with _ | s
    · simp [vendorScopeFilter, specFiveCaseFilter, optTruthy, h]
    · cases s <;> simp [vendorScopeFilter, specFiveCaseFilter, optTruthy, h] <;> rfl
    · simp only [vendorScopeFilter, specFiveCaseFilter, optTruthy, h]
      rfl
    · cases s <;> simp [vendorScopeFilter, specFiveCaseFilter, optTruthy, h] <;> rfl

theorem projectScopeFilter_eq_spec (scope : Option ListScope) (b : Option String) :
    projectScopeFilter scope b = specFiveCaseFilter scope b := by
  rcases b with _ | bv
  · rcases scope with _ | s
    · rfl
    · cases s <;> rfl
  · by_cases h : bv.isEmpty <;>
      rcases scope with _ | s
    · simp [projectScopeFilter, specFiveCaseFilter, optTruthy, h]
    · cases s <;> simp [projectScopeFilter, specFiveCaseFilter, optTruthy, h] <;> rfl
    · simp only [projectScopeFilter, specFiveCaseFilter, optTruthy, h]
      rfl
    · cases s <;> simp [projectScopeFilter, specFiveCaseFilter, optTruthy, h] <;> rfl

/-! ## Concrete fixtures -/

/-- An organization-wide vendor row (null branch) of organization `org1`. -/
def orgWideVendorRow : VendorRow :=
  { id := "v0", organization_id := "org1", branch_office_id := none, name := "V"
    tin := "1", contact_email := none, contact_phone := none, notes := none
    documents := none, created_by := none, created_at := "t0", updated_at := "t0" }

/-- An organization-wide agreement row (null branch) of organization `org1`. -/
def orgWideAgreementRow : AgreementRow :=
  { id := "a0", organization_id := "org1", branch_office_id := none, project_id := none
    owner_user_id := none, title := "T", counterparty := "C", department := none
    owner := none, effective_date := none, renewal_date := none, value := none
    risk_level := "Low", status := "Draft", sections := none, tags := none
    version := none, comments := none, audit_log := none
    created_at := "t0", updated_at := "t0" }

/-! ## C1 — scope-filter semantics across the resource services -/

/-- C1 counterexample: the five-case policy's case 4 (no scope, known branch
id `B1`) requires `(branch_office_id = B1) OR (branch_office_id IS NULL)` —
`fetchVendors` duly returns the organization-wide row — but
`fetchAgreementsForOrganization` with the same inputs applies a plain
equality filter and drops that row, so the branch-scope semantics are not
identical across all four resource services. -/
theorem c1_agreement_filter_breaks_five_case_policy :
    specFiveCaseFilter none (some "B1") = RowFilter.eqBranchOrNull "B1" ∧
    filterMatches (RowFilter.eqBranchOrNull "B1") none = true ∧
    fetchVendors [orgWideVendorRow] "org1" (some "B1") none =
      [rowToVendor orgWideVendorRow] ∧
    fetchAgreementsForOrganization [orgWideAgreementRow] "org1" (some "B1") none = [] :=
  ⟨rfl, rfl, rfl, rfl⟩

/-- C1 (amended): `fetchVendors` and `fetchProjects` apply exactly the
five-case Scope Filter policy, with identical semantics, for every
combination of requested scope and branch id; `fetchAgreementsForOrganization`
however supports no scope parameter and applies only a plain
`branch_office_id = X` equality filter when a branch id is supplied, so the
policy does not extend to the Agreements service (and the Templates list
implementation is absent from the source). -/
theorem c1_vendor_project_five_case_agreement_eq_only :
    (∀ scope b, vendorScopeFilter scope b = specFiveCaseFilter scope b) ∧
    (∀ scope b, projectScopeFilter scope b = specFiveCaseFilter scope b) ∧
    (∀ (db : List AgreementRow) (org b : String), org.isEmpty = false →
      b.isEmpty = false →
      fetchAgreementsForOrganization db org (some b) none =
        (db.filter fun r =>
          r.organization_id == org && r.branch_office_id == some b).map
          rowToAgreement) := by
  refine ⟨vendorScopeFilter_eq_spec, projectScopeFilter_eq_spec, ?_⟩
  intro db org b horg hb
  simp [fetchAgreementsForOrganization, optTruthy, horg, hb]

/-- C1 witness: the amended theorem's agreements clause evaluated at a
concrete store. -/
theorem c1_vendor_project_five_case_agreement_eq_only_witness :
    ("org1" : String).isEmpty = false ∧ ("B1" : String).isEmpty = false ∧
    fetchAgreementsForOrganization [orgWideAgreementRow] "org1" (some "B1") none =
      ([orgWideAgreementRow].filter fun r =>
        r.organization_id == "org1" && r.branch_office_id == some "B1").map
        rowToAgreement :=
  ⟨rfl, rfl,
    c1_vendor_project_five_case_agreement_eq_only.2.2 [orgWideAgreementRow] "org1" "B1"
      rfl rfl⟩

/-! ## C9 — explicit scope `all` overrides the branch-member default filter -/

/-- C9: in `fetchVendors` and `fetchProjects`, passing `scope = 'all'`
suppresses every branch filter even when a non-null `branchOfficeId` is also
supplied: the result equals the query with neither scope nor branch id, and
is the organization's full row set (every branch's rows plus
organization-wide rows). -/
theorem c9_scope_all_suppresses_branch_filter (db : List VendorRow)
    (pdb : List ProjectRow) (org b : String) (statuses : List String) :
    fetchVendors db org (some b) (some ListScope.all) = fetchVendors db org none none ∧
    fetchVendors db org (some b) (some ListScope.all) =
      (db.filter fun r => r.organization_id == org).map rowToVendor ∧
    fetchProjects pdb org (some b) (some ListScope.all) statuses =
      fetchProjects pdb org none none statuses ∧
    fetchProjects pdb org (some b) (some ListScope.all) statuses =
      (pdb.filter fun r =>
        r.organization_id == org && (statuses.isEmpty || statuses.contains r.status)).map
        rowToProject := by
  have hbne : (some ListScope.all != some ListScope.all) = false := by decide
  have hv : vendorScopeFilter (some ListScope.all) (some b) = RowFilter.noFilter := by
    by_cases h : b.isEmpty <;> simp [vendorScopeFilter, h, hbne]
  have hp : projectScopeFilter (some ListScope.all) (some b) = RowFilter.noFilter := by
    by_cases h : b.isEmpty <;> simp [projectScopeFilter, h, hbne]
  have hvn : vendorScopeFilter none none = RowFilter.noFilter := rfl
  have hpn : projectScopeFilter none none = RowFilter.noFilter := rfl
  refine ⟨?_, ?_, ?_, ?_⟩ <;>
    simp [fetchVendors, fetchProjects, hv, hp, hvn, hpn, filterMatches]

/-! ## C10 — agreements are fully defaulted by row conversion -/

/-- C10: every Agreement produced by `fetchAgreementsForOrganization` comes
from a stored row through `rowToAgreement`, which always yields concrete
(never-null) collections and numbers — `sections`, `tags`, `comments`,
`auditLog` default to `[]`, `value` to `0` and `version` to `1` when the
stored column is null — and the record returned by
`upsertAgreementForOrganization` is the converted stored payload, whose
collections and numbers echo the written agreement. -/
theorem c10_agreement_row_conversion_defaults :
    (∀ row : AgreementRow,
      (rowToAgreement row).sections = row.sections.getD [] ∧
      (rowToAgreement row).tags = row.tags.getD [] ∧
      (rowToAgreement row).comments = row.comments.getD [] ∧
      (rowToAgreement row).auditLog = row.audit_log.getD [] ∧
      (rowToAgreement row).value = row.value.getD 0 ∧
      (rowToAgreement row).version = row.version.getD 1) ∧
    (∀ (db : List AgreementRow) (org : String) (b p : Option String) (a : Agreement),
      a ∈ fetchAgreementsForOrganization db org b p →
      ∃ row, row ∈ db ∧ a = rowToAgreement row) ∧
    (∀ (db : List AgreementRow) (agreement : Agreement) (org : String)
        (owner : Option String) (cAt uAt : String),
      (upsertAgreementForOrganization db agreement org owner cAt uAt).2 =
        rowToAgreement (agreementUpsertRow agreement org owner cAt uAt) ∧
      (upsertAgreementForOrganization db agreement org owner cAt uAt).2.sections =
        agreement.sections ∧
      (upsertAgreementForOrganization db agreement org owner cAt uAt).2.tags =
        agreement.tags ∧
      (upsertAgreementForOrganization db agreement org owner cAt uAt).2.comments =
        agreement.comments ∧
      (upsertAgreementForOrganization db agreement org owner cAt uAt).2.auditLog =
        agreement.auditLog ∧
      (upsertAgreementForOrganization db agreement org owner cAt uAt).2.value =
        agreement.value ∧
      (upsertAgreementForOrganization db agreement org owner cAt uAt).2.version =
        agreement.version) := by
  refine ⟨fun row => ⟨rfl, rfl, rfl, rfl, rfl, rfl⟩, ?_, ?_⟩
  · intro db org b p a ha
    unfold fetchAgreementsForOrganization at ha
    split at ha
    · simp at ha
    · rw [List.mem_map] at ha
      obtain ⟨row, hrow, hconv⟩ := ha
      exact ⟨row, List.mem_of_mem_filter hrow, hconv.symm⟩
  · intro db agreement org owner cAt uAt
    exact ⟨rfl, rfl, rfl, rfl, rfl, rfl, rfl⟩

/-- C10 witness: the membership clause evaluated on a one-row store whose
collection columns are all null. -/
theorem c10_agreement_row_conversion_defaults_witness :
    rowToAgreement orgWideAgreementRow ∈
      fetchAgreementsForOrganization [orgWideAgreementRow] "org1" none none ∧
    ∃ row, row ∈ [orgWideAgreementRow] ∧
      rowToAgreement orgWideAgreementRow = rowToAgreement row :=
  ⟨by decide,
    c10_agreement_row_conversion_defaults.2.1 [orgWideAgreementRow] "org1" none none
      (rowToAgreement orgWideAgreementRow) (by decide)⟩

/-! ## C3 — template visibility forced to branch for non-org-admins -/

theorem handleSaveTemplate_ok_shape (role : Option Role) (meta : TemplateMeta)
    (bo : Option String) (orgId uid tid : String) (draft : List String)
    (p : TemplatePayload)
    (hok : handleSaveTemplate role meta bo orgId uid tid draft = Except.ok p) :
    p.visibility =
      (if role == some Role.org_admin then meta.visibility else FormScope.branch) ∧
    p.branch_office_id =
      (if p.visibility == FormScope.branch then bo else none) := by
  unfold handleSaveTemplate at hok
  split at hok
  · exact absurd hok (by simp)
  · dsimp only at hok
    rcases hvis : (if role == some Role.org_admin then meta.visibility
        else FormScope.branch) with _ | _ <;> rw [hvis] at hok
    · cases hok
      exact ⟨rfl, rfl⟩
    · rw [if_pos (show (FormScope.branch == FormScope.branch) = true from rfl)] at hok
      rw [show ((FormScope.branch == FormScope.branch : Bool)) = true from rfl,
        Bool.true_and] at hok
      cases hob : optTruthy bo <;> rw [hob] at hok
      · exact absurd hok (by simp)
      · cases hok
        exact ⟨rfl, rfl⟩

/-- C3: a template save performed by a branch_admin always stores
`visibility = 'branch'` with `branch_office_id` equal to the admin's own
branch, whatever visibility the client chose; when the branch context is
absent the save is rejected with no write; and any saved template with
`visibility = 'organization'` can only come from an org_admin who chose the
organization toggle. -/
theorem c3_branch_admin_template_forced_to_branch :
    (∀ (meta : TemplateMeta) (b orgId uid tid : String) (draft : List String),
      (jsTrim meta.name).isEmpty = false → b.isEmpty = false →
      handleSaveTemplate (some Role.branch_admin) meta (some b) orgId uid tid draft =
        Except.ok
          { id := tid, organization_id := orgId, branch_office_id := some b
            name := (jsTrim meta.name), description := (jsTrim meta.description)
            visibility := FormScope.branch, sections := draft, created_by := uid }) ∧
    (∀ (meta : TemplateMeta) (orgId uid tid : String) (draft : List String),
      (jsTrim meta.name).isEmpty = false →
      handleSaveTemplate (some Role.branch_admin) meta none orgId uid tid draft =
        Except.error "Branch templates require a branch office context.") ∧
    (∀ (role : Option Role) (meta : TemplateMeta) (bo : Option String)
        (orgId uid tid : String) (draft : List String) (p : TemplatePayload),
      handleSaveTemplate role meta bo orgId uid tid draft = Except.ok p →
      p.visibility = FormScope.organization →
      role = some Role.org_admin ∧ meta.visibility = FormScope.organization) := by
  refine ⟨?_, ?_, ?_⟩
  · intro meta b orgId uid tid draft hname hb
    simp +decide [handleSaveTemplate, hname, optTruthy, hb]
  · intro meta orgId uid tid draft hname
    simp +decide [handleSaveTemplate, hname, optTruthy]
  · intro role meta bo orgId uid tid draft p hok hvis
    obtain ⟨h1, _⟩ := handleSaveTemplate_ok_shape role meta bo orgId uid tid draft p hok
    cases hrole : role == some Role.org_admin
    · rw [hrole] at h1
      simp only [Bool.false_eq_true, if_false] at h1
      rw [hvis] at h1
      exact absurd h1 (by decide)
    · rw [hrole, if_pos (show (true : Bool) = true from rfl)] at h1
      have hrole2 : role = some Role.org_admin := by
        rcases role with _ | r
        · exact absurd hrole (by decide)
        · cases r
          · rfl
          · exact absurd hrole (by decide)
          · exact absurd hrole (by decide)
      exact ⟨hrole2, h1.symm.trans hvis⟩

/-- A template form state requesting organization-wide visibility. -/
def sampleTemplateMeta : TemplateMeta :=
  { name := "NDA", description := "", visibility := FormScope.organization }

/-- C3 witness: a branch_admin requesting organization visibility still gets
a branch-scoped template on their own branch. -/
theorem c3_branch_admin_template_forced_to_branch_witness :
    (jsTrim sampleTemplateMeta.name).isEmpty = false ∧ ("br1" : String).isEmpty = false ∧
    handleSaveTemplate (some Role.branch_admin) sampleTemplateMeta (some "br1")
        "org1" "u1" "t1" [] =
      Except.ok
        { id := "t1", organization_id := "org1", branch_office_id := some "br1"
          name := (jsTrim sampleTemplateMeta.name)
          description := (jsTrim sampleTemplateMeta.description)
          visibility := FormScope.branch
          sections := [], created_by := "u1" } :=
  ⟨by decide, by decide,
    c3_branch_admin_template_forced_to_branch.1 sampleTemplateMeta "br1" "org1" "u1" "t1" []
      (by decide) (by decide)⟩

/-! ## C5 — branch members' created resources are forced onto their branch -/

/-- The branch assignment of the AgreementGenerator's `handleSave`
(`branchOfficeId ?? initialData?.branchOfficeId ?? null`): the caller's own
branch when present, else the branch already on the agreement being
edited. -/
def agreementSaveBranchAssignment (authBranchOfficeId : Option String)
    (initialBranch : Option String) : Option String :=
  match authBranchOfficeId with
  | some b => some b
  | none => initialBranch

theorem handleCreateVendor_ok_branch (isOrgAdmin : Bool) (ab : Option String)
    (orgId : String) (uid : Option String) (form : VendorFormState)
    (p : CreateVendorPayload)
    (hok : handleCreateVendor isOrgAdmin ab orgId uid form = Except.ok p) :
    p.branch_office_id =
      (if isOrgAdmin then
        (if form.scope == FormScope.organization then none
         else strOrNull form.branchOfficeId)
       else ab) := by
  unfold handleCreateVendor at hok
  split at hok
  · exact absurd hok (by simp)
  · split at hok
    · exact absurd hok (by simp)
    · dsimp only at hok
      cases hok
      rfl

theorem handleQuickVendorSave_ok_branch (isOrgAdmin : Bool) (ab : Option String)
    (orgId : String) (uid : Option String) (form : QuickVendorForm)
    (p : CreateVendorPayload)
    (hok : handleQuickVendorSave isOrgAdmin ab orgId uid form = Except.ok p) :
    p.branch_office_id =
      (if isOrgAdmin then
        (if form.scope == FormScope.organization then none
         else strOrNull form.branchOfficeId)
       else ab) := by
  unfold handleQuickVendorSave at hok
  split at hok
  · exact absurd hok (by simp)
  · dsimp only at hok
    cases isOrgAdmin
    · simp only [Bool.false_eq_true, if_false] at hok
      split at hok
      · exact absurd hok (by simp)
      · cases hok
        rfl
    · simp only [if_pos] at hok
      cases hscope : form.scope
      · simp +decide only [hscope] at hok
        cases hok
        rfl
      · simp +decide only [hscope, if_false] at hok
        split at hok
        · exact absurd hok (by simp)
        · cases hok
          rfl

theorem handleQuickProjectSave_ok_branch (isOrgAdmin : Bool) (ab : Option String)
    (orgId : String) (uid : Option String) (form : QuickProjectForm)
    (p : CreateProjectPayload)
    (hok : handleQuickProjectSave isOrgAdmin ab orgId uid form = Except.ok p) :
    p.branch_office_id =
      (if isOrgAdmin then
        (if form.scope == FormScope.organization then none
         else strOrNull form.branchOfficeId)
       else ab) := by
  unfold handleQuickProjectSave at hok
  split at hok
  · exact absurd hok (by simp)
  · dsimp only at hok
    cases isOrgAdmin
    · simp only [Bool.false_eq_true, if_false] at hok
      split at hok
      · exact absurd hok (by simp)
      · cases hok
        rfl
    · simp only [if_pos] at hok
      cases hscope : form.scope
      · simp +decide only [hscope] at hok
        cases hok
        rfl
      · simp +decide only [hscope, if_false] at hok
        split at hok
        · exact absurd hok (by simp)
        · cases hok
          rfl

/-- The ProjectManager create-project form state (`ProjectFormState`); an
unset branch choice is the empty string. -/
structure ProjectFormState where
  name : String
  description : String
  status : String
  scope : FormScope
  branchOfficeId : String
  startDate : String
  endDate : String
deriving DecidableEq, Repr

/-- `handleCreateProject` (ProjectManager view, rendered from App for the
projects route): validates the form, then inserts with
`branch_office_id = form.scope === 'organization' ? null :
form.branchOfficeId || branchOfficeId || null` — there is no role check, so
the form's scope and branch choice take precedence over the caller's own
branch.  The `start_date`/`end_date` pass-through fields of the insert are
not modelled, as for the quick-add handler. -/
def handleCreateProject (authBranchOfficeId : Option String)
    (organizationId : String) (userId : Option String) (form : ProjectFormState) :
    Except String CreateProjectPayload :=
  if (jsTrim form.name).isEmpty then .error "Project name is required."
  else if form.scope == FormScope.branch &&
      !(!form.branchOfficeId.isEmpty || optTruthy authBranchOfficeId) then
    .error "Select a branch for branch-scoped projects."
  else
    .ok { organization_id := organizationId
          branch_office_id :=
            if form.scope == FormScope.organization then none
            else
              match strOrNull form.branchOfficeId with
              | some b => some b
              | none => jsOrNull authBranchOfficeId
          name := jsTrim form.name
          description := strOrNull (jsTrim form.description)
          status := form.status
          created_by := userId }

theorem handleCreateProject_ok_branch (ab : Option String) (orgId : String)
    (uid : Option String) (form : ProjectFormState) (p : CreateProjectPayload)
    (hok : handleCreateProject ab orgId uid form = Except.ok p) :
    p.branch_office_id =
      (if form.scope == FormScope.organization then none
       else
         match strOrNull form.branchOfficeId with
         | some b => some b
         | none => jsOrNull ab) := by
  unfold handleCreateProject at hok
  split at hok
  · exact absurd hok (by simp)
  · split at hok
    · exact absurd hok (by simp)
    · cases hok
      rfl

/-- A project form that names another branch than the caller's own. -/
def projectFormOtherBranch : ProjectFormState :=
  { name := "Expansion", description := "", status := "active"
    scope := FormScope.branch, branchOfficeId := "br2"
    startDate := "", endDate := "" }

/-- A project form choosing organization-wide scope. -/
def projectFormOrgWide : ProjectFormState :=
  { name := "Rollout", description := "", status := "active"
    scope := FormScope.organization, branchOfficeId := ""
    startDate := "", endDate := "" }

/-- C5 counterexample: ProjectManager's `handleCreateProject` performs no
role check, so for a branch member whose own branch is `br1` (the
`branchOfficeId` the view passes), a form choice of branch `br2` yields a
row on `br2` — not the creator's own branch — and a form choice of
organization scope yields an organization-wide row (`branch_office_id`
null), which the claim reserves to org_admins.  Only the UI's hiding of the
scope radios protects this path. -/
theorem c5_project_form_overrides_own_branch_counterexample :
    handleCreateProject (some "br1") "org1" (some "u1") projectFormOtherBranch =
      Except.ok
        { organization_id := "org1", branch_office_id := some "br2"
          name := jsTrim projectFormOtherBranch.name
          description := strOrNull (jsTrim projectFormOtherBranch.description)
          status := "active", created_by := some "u1" } ∧
    (some "br2" : Option String) ≠ some "br1" ∧
    handleCreateProject (some "br1") "org1" (some "u1") projectFormOrgWide =
      Except.ok
        { organization_id := "org1", branch_office_id := none
          name := jsTrim projectFormOrgWide.name
          description := strOrNull (jsTrim projectFormOrgWide.description)
          status := "active", created_by := some "u1" } :=
  ⟨rfl, by decide, rfl⟩

/-- C5 (amended): the VendorManager create handler and the
AgreementGenerator quick-add vendor/project handlers force a non-org-admin's
created row onto the creator's own branch regardless of the form's scope or
branch choice, and the agreement save pins the caller's own branch; an
org_admin choosing organization scope gets `branch_office_id = null` and an
explicitly chosen target branch otherwise.  ProjectManager's
`handleCreateProject`, however, trusts the form for every role: a row lands
on the creator's own branch only when the form carries no explicit branch
choice, while a form branch choice wins outright and organization scope
yields a null (organization-wide) branch. -/
theorem c5_branch_member_created_rows_pinned_to_own_branch :
    (∀ (role : Role) (b orgId : String) (uid : Option String)
        (form : VendorFormState) (p : CreateVendorPayload),
      role ≠ Role.org_admin →
      handleCreateVendor (role == Role.org_admin) (some b) orgId uid form =
        Except.ok p →
      p.branch_office_id = some b) ∧
    (∀ (role : Role) (b orgId : String) (uid : Option String)
        (form : QuickVendorForm) (p : CreateVendorPayload),
      role ≠ Role.org_admin →
      handleQuickVendorSave (role == Role.org_admin) (some b) orgId uid form =
        Except.ok p →
      p.branch_office_id = some b) ∧
    (∀ (role : Role) (b orgId : String) (uid : Option String)
        (form : QuickProjectForm) (p : CreateProjectPayload),
      role ≠ Role.org_admin →
      handleQuickProjectSave (role == Role.org_admin) (some b) orgId uid form =
        Except.ok p →
      p.branch_office_id = some b) ∧
    (∀ (b : String) (initialBranch : Option String),
      agreementSaveBranchAssignment (some b) initialBranch = some b) ∧
    (∀ (ab : Option String) (orgId : String) (uid : Option String)
        (form : VendorFormState) (p : CreateVendorPayload),
      form.scope = FormScope.organization →
      handleCreateVendor true ab orgId uid form = Except.ok p →
      p.branch_office_id = none) ∧
    (∀ (ab : Option String) (orgId : String) (uid : Option String)
        (form : VendorFormState) (c : String) (p : CreateVendorPayload),
      form.scope = FormScope.branch → form.branchOfficeId = c → c.isEmpty = false →
      handleCreateVendor true ab orgId uid form = Except.ok p →
      p.branch_office_id = some c) ∧
    (∀ (b orgId : String) (uid : Option String) (form : ProjectFormState)
        (p : CreateProjectPayload),
      form.scope = FormScope.branch → form.branchOfficeId = "" →
      b.isEmpty = false →
      handleCreateProject (some b) orgId uid form = Except.ok p →
      p.branch_office_id = some b) ∧
    (∀ (ab : Option String) (orgId : String) (uid : Option String)
        (form : ProjectFormState) (p : CreateProjectPayload),
      form.scope = FormScope.organization →
      handleCreateProject ab orgId uid form = Except.ok p →
      p.branch_office_id = none) ∧
    (∀ (ab : Option String) (orgId : String) (uid : Option String)
        (form : ProjectFormState) (c : String) (p : CreateProjectPayload),
      form.scope = FormScope.branch → form.branchOfficeId = c → c.isEmpty = false →
      handleCreateProject ab orgId uid form = Except.ok p →
      p.branch_office_id = some c) := by
  have hrolef : ∀ (role : Role), role ≠ Role.org_admin →
      (role == Role.org_admin) = false := by
    intro role h
    cases role
    · exact absurd rfl h
    · rfl
    · rfl
  refine ⟨?_, ?_, ?_, fun b i => rfl, ?_, ?_, ?_, ?_, ?_⟩
  · intro role b orgId uid form p hne hok
    have := handleCreateVendor_ok_branch (role == Role.org_admin) (some b) orgId uid form p hok
    rw [hrolef role hne] at this
    simpa using this
  · intro role b orgId uid form p hne hok
    have := handleQuickVendorSave_ok_branch (role == Role.org_admin) (some b) orgId uid form p hok
    rw [hrolef role hne] at this
    simpa using this
  · intro role b orgId uid form p hne hok
    have := handleQuickProjectSave_ok_branch (role == Role.org_admin) (some b) orgId uid form p hok
    rw [hrolef role hne] at this
    simpa using this
  · intro ab orgId uid form p hscope hok
    have := handleCreateVendor_ok_branch true ab orgId uid form p hok
    simpa [hscope] using this
  · intro ab orgId uid form c p hscope hbr hc hok
    have := handleCreateVendor_ok_branch true ab orgId uid form p hok
    simpa +decide [hscope, hbr, strOrNull, hc] using this
  · intro b orgId uid form p hscope hbr hb hok
    have := handleCreateProject_ok_branch (some b) orgId uid form p hok
    simpa +decide [hscope, hbr, strOrNull, jsOrNull, hb] using this
  · intro ab orgId uid form p hscope hok
    have := handleCreateProject_ok_branch ab orgId uid form p hok
    simpa [hscope] using this
  · intro ab orgId uid form c p hscope hbr hc hok
    have := handleCreateProject_ok_branch ab orgId uid form p hok
    simpa +decide [hscope, hbr, strOrNull, hc] using this

/-- A branch-scoped vendor creation form with no explicit branch choice. -/
def sampleVendorForm : VendorFormState :=
  { name := "Acme", tin := "55", contactEmail := "", contactPhone := ""
    notes := "", scope := FormScope.branch, branchOfficeId := "" }

/-- A branch-scoped project creation form with no explicit branch choice. -/
def sampleProjectForm : ProjectFormState :=
  { name := "Audit", description := "", status := "active"
    scope := FormScope.branch, branchOfficeId := ""
    startDate := "", endDate := "" }

/-- C5 witness: a branch_admin with branch `br1` creating a vendor gets a
row pinned to `br1`, and a project form carrying no branch choice falls
back to the caller's branch `br1`. -/
theorem c5_branch_member_created_rows_pinned_to_own_branch_witness :
    Role.branch_admin ≠ Role.org_admin ∧
    handleCreateVendor (Role.branch_admin == Role.org_admin) (some "br1") "org1"
        (some "u1") sampleVendorForm =
      Except.ok
        { organization_id := "org1", branch_office_id := some "br1"
          name := jsTrim sampleVendorForm.name, tin := jsTrim sampleVendorForm.tin
          contact_email := strOrNull (jsTrim sampleVendorForm.contactEmail)
          contact_phone := strOrNull (jsTrim sampleVendorForm.contactPhone)
          notes := strOrNull (jsTrim sampleVendorForm.notes)
          documents := [], created_by := some "u1" } ∧
    ({ organization_id := "org1", branch_office_id := some "br1"
       name := jsTrim sampleVendorForm.name, tin := jsTrim sampleVendorForm.tin
       contact_email := strOrNull (jsTrim sampleVendorForm.contactEmail)
       contact_phone := strOrNull (jsTrim sampleVendorForm.contactPhone)
       notes := strOrNull (jsTrim sampleVendorForm.notes)
       documents := [], created_by := some "u1" } : CreateVendorPayload).branch_office_id =
      some "br1" ∧
    sampleProjectForm.scope = FormScope.branch ∧
    sampleProjectForm.branchOfficeId = "" ∧
    ("br1" : String).isEmpty = false ∧
    handleCreateProject (some "br1") "org1" (some "u1") sampleProjectForm =
      Except.ok
        { organization_id := "org1", branch_office_id := some "br1"
          name := jsTrim sampleProjectForm.name
          description := strOrNull (jsTrim sampleProjectForm.description)
          status := "active", created_by := some "u1" } ∧
    ({ organization_id := "org1", branch_office_id := some "br1"
       name := jsTrim sampleProjectForm.name
       description := strOrNull (jsTrim sampleProjectForm.description)
       status := "active"
       created_by := some "u1" } : CreateProjectPayload).branch_office_id =
      some "br1" :=
  ⟨by decide, rfl,
    c5_branch_member_created_rows_pinned_to_own_branch.1 Role.branch_admin "br1" "org1"
      (some "u1") sampleVendorForm _ (by decide) rfl,
    by decide, by decide, by decide, rfl,
    c5_branch_member_created_rows_pinned_to_own_branch.2.2.2.2.2.2.1 "br1" "org1"
      (some "u1") sampleProjectForm _ (by decide) (by decide) (by decide) rfl⟩

/-! ## C6 — vendor document cap rejects the whole batch -/

/-- C6: when a vendor's existing document count plus the size of a non-empty
upload batch exceeds the cap of `MAX_DOCUMENTS = 3`, `handleUploadDocuments`
rejects the whole batch before any upload — no file is sent to the object
store, the stored document list is unchanged, and the cap error is
surfaced (in particular no proper subset of the batch is applied). -/
theorem c6_document_cap_rejects_whole_batch (mkDoc : UploadFile → String)
    (docs : List String) (files : List UploadFile) (hne : files ≠ [])
    (hover : MAX_DOCUMENTS < docs.length + files.length) :
    handleUploadDocuments mkDoc docs files =
      { uploadedFiles := [], storedDocuments := docs
        docError := some "You can upload up to 3 files per vendor." } := by
  unfold handleUploadDocuments
  rw [if_neg, if_pos]
  · omega
  · simp [List.isEmpty_iff, hne]

/-- C6 witness: a vendor holding 2 documents and a 2-file batch is rejected
unchanged. -/
theorem c6_document_cap_rejects_whole_batch_witness :
    ([{ name := "a.pdf", mime := "application/pdf" },
      { name := "b.pdf", mime := "application/pdf" }] : List UploadFile) ≠ [] ∧
    MAX_DOCUMENTS < (["d1", "d2"] : List String).length + 2 ∧
    handleUploadDocuments (fun f => f.name) ["d1", "d2"]
        [{ name := "a.pdf", mime := "application/pdf" },
         { name := "b.pdf", mime := "application/pdf" }] =
      { uploadedFiles := [], storedDocuments := ["d1", "d2"]
        docError := some "You can upload up to 3 files per vendor." } :=
  ⟨by decide, by decide,
    c6_document_cap_rejects_whole_batch (fun f => f.name) ["d1", "d2"]
      [{ name := "a.pdf", mime := "application/pdf" },
       { name := "b.pdf", mime := "application/pdf" }]
      (by decide) (by decide)⟩

/-! ## C8 — invite creation is durable across email-dispatch failure -/

/-- C8: on the path where the invite row insert succeeds and the best-effort
email dispatch then fails, the invite row is still present with status
`'pending'` and its token still resolves through `fetchInviteByToken`; no
rollback occurs, the raw invite link is surfaced for manual sharing, and
the error message only warns about the email. -/
theorem c8_invite_survives_email_failure (invites : List InviteRow)
    (origin orgId branch email token newId : String)
    (hemail : email.isEmpty = false)
    (htok : fetchInviteByToken invites token = none) :
    (handleCreateInvite invites origin orgId branch email token newId false).invites =
      invites ++
        [{ id := newId, organization_id := orgId, branch_office_id := branch
           email := jsToLower (jsTrim email), invite_token := token
           role := InviteRole.branch_admin, status := InviteStatus.pending
           user_id := none, full_name := none, department := none, title := none
           contact_email := some (jsToLower (jsTrim email)) }] ∧
    (handleCreateInvite invites origin orgId branch email token newId false).inviteLink =
      some (origin ++ "/#/invite/" ++ token) ∧
    (handleCreateInvite invites origin orgId branch email token newId false).inviteError =
      some "Invite saved, but email delivery failed. Copy the link below and share it manually." ∧
    fetchInviteByToken
        (handleCreateInvite invites origin orgId branch email token newId false).invites
        token =
      some
        { id := newId, organization_id := orgId, branch_office_id := branch
          email := jsToLower (jsTrim email), invite_token := token
          role := InviteRole.branch_admin, status := InviteStatus.pending
          user_id := none, full_name := none, department := none, title := none
          contact_email := some (jsToLower (jsTrim email)) } := by
  unfold handleCreateInvite
  rw [if_neg (by simp [hemail])]
  refine ⟨rfl, rfl, rfl, ?_⟩
  unfold fetchInviteByToken at htok ⊢
  rw [List.find?_append, htok, Option.none_or, List.find?_cons]
  simp

/-- C8 witness: one concrete invite creation with a failing email dispatch. -/
theorem c8_invite_survives_email_failure_witness :
    ("p@x.co" : String).isEmpty = false ∧
    fetchInviteByToken [] "tok1" = none ∧
    (handleCreateInvite [] "https://app" "org1" "br1" "p@x.co" "tok1" "inv1"
        false).inviteError =
      some "Invite saved, but email delivery failed. Copy the link below and share it manually." ∧
    fetchInviteByToken
        (handleCreateInvite [] "https://app" "org1" "br1" "p@x.co" "tok1" "inv1"
          false).invites "tok1" =
      some
        { id := "inv1", organization_id := "org1", branch_office_id := "br1"
          email := jsToLower (jsTrim "p@x.co"), invite_token := "tok1"
          role := InviteRole.branch_admin, status := InviteStatus.pending
          user_id := none, full_name := none, department := none, title := none
          contact_email := some (jsToLower (jsTrim "p@x.co")) } :=
  ⟨rfl, rfl,
    (c8_invite_survives_email_failure [] "https://app" "org1" "br1" "p@x.co" "tok1"
      "inv1" rfl rfl).2.2.1,
    (c8_invite_survives_email_failure [] "https://app" "org1" "br1" "p@x.co" "tok1"
      "inv1" rfl rfl).2.2.2⟩

/-! ## C2 — acceptance of a revoked invite (code bug) -/

/-- A stored invite whose status is `'revoked'`. -/
def revokedInvite : InviteRow :=
  { id := "inv1", organization_id := "org1", branch_office_id := "br1"
    email := "p@x.co", invite_token := "tok1", role := InviteRole.branch_admin
    status := InviteStatus.revoked, user_id := none, full_name := none
    department := none, title := none, contact_email := some "p@x.co" }

/-- A store holding only the revoked invite and no members. -/
def revokedStore : InviteStore := { invites := [revokedInvite], members := [] }

/-- C2: contrary to the claim (and to the spec's pending-only/terminal-state
rule), the code's `loadInvite` lets a stored `'revoked'` invite through to
the acceptance form — `fetchInviteByToken` does not filter on status and the
view only diverts on `'accepted'` — so acceptance succeeds, creates an
OrganizationMember row, and even moves the invite from the terminal
`'revoked'` state to `'accepted'`. -/
theorem c2_revoked_invite_is_accepted_by_code :
    loadInvite revokedStore.invites "tok1" = LoadInviteResult.ready revokedInvite ∧
    (acceptInvite revokedStore "tok1" "user9" "mem1").2 = AcceptOutcome.accountCreated ∧
    (acceptInvite revokedStore "tok1" "user9" "mem1").1.members =
      [{ id := "mem1", organization_id := "org1", user_id := "user9"
         role := Role.branch_admin, branch_office_id := some "br1"
         department := none }] ∧
    (fetchInviteByToken (acceptInvite revokedStore "tok1" "user9" "mem1").1.invites
        "tok1").map (fun i => i.status) = some InviteStatus.accepted :=
  ⟨rfl, rfl, rfl, rfl⟩

/-! ## C4 — an invite token can be accepted at most once -/

theorem find?_markInviteAccepted (l : List InviteRow) (token u : String)
    (inv : InviteRow)
    (h : l.find? (fun r => r.invite_token == token) = some inv) :
    (markInviteAccepted l inv.id u).find? (fun r => r.invite_token == token) =
      some { inv with status := InviteStatus.accepted, user_id := some u } := by
  induction l with
  | nil => simp [List.find?] at h
  | cons a l ih =>
    rw [List.find?_cons] at h
    unfold markInviteAccepted at ih ⊢
    rw [List.map_cons, List.find?_cons]
    by_cases ha : (a.invite_token == token) = true
    · rw [ha] at h
      obtain rfl : a = inv := Option.some.inj h
      simp [ha]
    · rw [Bool.not_eq_true] at ha
      rw [ha] at h
      have htok : ((if (a.id == inv.id) = true then
          { a with status := InviteStatus.accepted, user_id := some u }
          else a).invite_token == token) = false := by
        split <;> exact ha
      rw [htok]
      exact ih h

theorem ensureMembership_key_unique (db : List MemberRow) (newId : String)
    (p : MemberPayload) (u o : String)
    (h : db.countP (fun r => r.user_id == u && r.organization_id == o) ≤ 1) :
    (ensureMembership db newId p).countP
      (fun r => r.user_id == u && r.organization_id == o) ≤ 1 := by
  unfold ensureMembership
  split
  · rw [List.countP_map]
    have hcong : db.countP
        ((fun r => r.user_id == u && r.organization_id == o) ∘ fun r =>
          if memberKeyMatches p r then
            { r with role := p.role, branch_office_id := p.branchOfficeId,
                     department := p.department }
          else r) =
        db.countP (fun r => r.user_id == u && r.organization_id == o) := by
      apply List.countP_congr
      intro r _
      by_cases hk : memberKeyMatches p r = true
      · simp [Function.comp, hk]
      · simp [Function.comp, hk]
    rw [hcong]
    exact h
  · rename_i hany
    rw [List.countP_append]
    by_cases hp : ((p.userId == u && p.organizationId == o) = true)
    · have hzero : db.countP (fun r => r.user_id == u && r.organization_id == o) = 0 := by
        rw [List.countP_eq_zero]
        intro r hr hpred
        apply hany
        rw [List.any_eq_true]
        refine ⟨r, hr, ?_⟩
        unfold memberKeyMatches
        obtain ⟨hu, ho⟩ := Bool.and_eq_true_iff.mp hpred
        obtain ⟨hu2, ho2⟩ := Bool.and_eq_true_iff.mp hp
        rw [beq_iff_eq] at hu ho hu2 ho2
        rw [hu, ho, ← hu2, ← ho2]
        simp
      rw [hzero]
      simp [List.countP_cons, hp]
    · rw [Bool.not_eq_true] at hp
      have hone : List.countP (fun r : MemberRow => r.user_id == u && r.organization_id == o)
          [⟨newId, p.organizationId, p.userId, p.role, p.branchOfficeId, p.department⟩] = 0 := by
        simp [List.countP_cons, hp]
      rw [hone]
      simpa using h

/-- C4: once an invite has been accepted, a second acceptance attempt with
the same token surfaces "already accepted" and leaves the store untouched
(in particular no second OrganizationMember row is created); and the
membership upsert keyed on (user_id, organization_id) preserves the
at-most-one-membership-per-user-per-organization invariant. -/
theorem c4_invite_token_single_use :
    (∀ (st : InviteStore) (token u1 m1 u2 m2 : String) (invite : InviteRow),
      fetchInviteByToken st.invites token = some invite →
      invite.status = InviteStatus.pending →
      acceptInvite (acceptInvite st token u1 m1).1 token u2 m2 =
        ((acceptInvite st token u1 m1).1, AcceptOutcome.surfacedAlreadyAccepted)) ∧
    (∀ (db : List MemberRow) (newId : String) (p : MemberPayload) (u o : String),
      db.countP (fun r => r.user_id == u && r.organization_id == o) ≤ 1 →
      (ensureMembership db newId p).countP
        (fun r => r.user_id == u && r.organization_id == o) ≤ 1) := by
  refine ⟨?_, ensureMembership_key_unique⟩
  intro st token u1 m1 u2 m2 invite hfind hpending
  have hl1 : loadInvite st.invites token = LoadInviteResult.ready invite := by
    unfold loadInvite
    rw [hfind]
    dsimp only
    rw [hpending]
    rfl
  have hstep1 : acceptInvite st token u1 m1 =
      (handleAccept st invite u1 m1, AcceptOutcome.accountCreated) := by
    unfold acceptInvite
    rw [hl1]
  have hfind2 : fetchInviteByToken (handleAccept st invite u1 m1).invites token =
      some { invite with status := InviteStatus.accepted, user_id := some u1 } :=
    find?_markInviteAccepted st.invites token u1 invite hfind
  have hl2 : loadInvite (handleAccept st invite u1 m1).invites token =
      LoadInviteResult.alreadyAccepted := by
    unfold loadInvite
    rw [hfind2]
    rfl
  rw [hstep1]
  show acceptInvite (handleAccept st invite u1 m1) token u2 m2 = _
  unfold acceptInvite
  rw [hl2]

/-- A stored invite whose status is `'pending'`. -/
def pendingInvite : InviteRow :=
  { id := "inv2", organization_id := "org1", branch_office_id := "br1"
    email := "q@x.co", invite_token := "tok2", role := InviteRole.branch_user
    status := InviteStatus.pending, user_id := none, full_name := none
    department := some "Finance", title := none, contact_email := some "q@x.co" }

/-- A store holding only the pending invite and no members. -/
def pendingStore : InviteStore := { invites := [pendingInvite], members := [] }

/-- C4 witness: accepting the pending invite and then re-accepting the same
token surfaces "already accepted" with the store unchanged, on a concrete
store; and the membership upsert into an empty member table keeps the key
count at most one. -/
theorem c4_invite_token_single_use_witness :
    fetchInviteByToken pendingStore.invites "tok2" = some pendingInvite ∧
    pendingInvite.status = InviteStatus.pending ∧
    acceptInvite (acceptInvite pendingStore "tok2" "u1" "m1").1 "tok2" "u2" "m2" =
      ((acceptInvite pendingStore "tok2" "u1" "m1").1,
        AcceptOutcome.surfacedAlreadyAccepted) ∧
    ([] : List MemberRow).countP
      (fun r => r.user_id == "u1" && r.organization_id == "org1") ≤ 1 ∧
    (ensureMembership [] "m1"
        { userId := "u1", organizationId := "org1", role := Role.branch_user }).countP
      (fun r => r.user_id == "u1" && r.organization_id == "org1") ≤ 1 :=
  ⟨rfl, rfl,
    c4_invite_token_single_use.1 pendingStore "tok2" "u1" "m1" "u2" "m2" pendingInvite
      rfl rfl,
    by decide,
    c4_invite_token_single_use.2 [] "m1"
      { userId := "u1", organizationId := "org1", role := Role.branch_user }
      "u1" "org1" (by decide)⟩

/-! ## C7 — write-through repair of a missing org_admin membership -/

/-- C7: for a user who owns an Organization row but has no membership row,
`hydrateMembership` synthesizes exactly one org_admin membership for that
(user, organization) — the key count becomes 1 — resolves the auth state to
that organization with role org_admin and no branch, and a second call finds
the synthesized row, changes nothing, and returns the same state. -/
theorem c7_membership_synthesis_idempotent (db : AuthDb) (userId newId newId2 : String) (org : OrgRow)
    (hnone : fetchMembershipForUser db.members userId = none)
    (horg : db.organizations.find? (fun o => o.user_id == userId) = some org) :
    ((hydrateMembership db userId newId).1.members.countP
        (fun r => r.user_id == userId && r.organization_id == org.id) = 1) ∧
    (hydrateMembership db userId newId).2 =
      { organization := some org.id, memberRole := some Role.org_admin
        branchOfficeId := none } ∧
    hydrateMembership (hydrateMembership db userId newId).1 userId newId2 =
      ((hydrateMembership db userId newId).1,
       { organization := some org.id, memberRole := some Role.org_admin
         branchOfficeId := none }) := by
  have hnouser : ∀ r ∈ db.members, (r.user_id == userId) = false := by
    intro r hr
    have := List.find?_eq_none.mp hnone r hr
    simpa using this
  have hany : db.members.any
      (memberKeyMatches ⟨userId, org.id, Role.org_admin, none, none⟩) = false := by
    rw [List.any_eq_false]
    intro r hr
    unfold memberKeyMatches
    simp [hnouser r hr]
  have hens : ensureMembership db.members newId
      ⟨userId, org.id, Role.org_admin, none, none⟩ =
      db.members ++
        [⟨newId, org.id, userId, Role.org_admin, none, none⟩] := by
    unfold ensureMembership
    rw [if_neg (by simp [hany])]
  have hhyd1 : hydrateMembership db userId newId =
      ({ db with members := db.members ++
          [⟨newId, org.id, userId, Role.org_admin, none, none⟩] },
       { organization := some org.id, memberRole := some Role.org_admin
         branchOfficeId := none }) := by
    unfold hydrateMembership
    rw [hnone]
    dsimp only
    rw [horg]
    dsimp only
    rw [hens]
  have hfetch2 : fetchMembershipForUser
      (db.members ++ [⟨newId, org.id, userId, Role.org_admin, none, none⟩]) userId =
      some ⟨newId, org.id, userId, Role.org_admin, none, none⟩ := by
    unfold fetchMembershipForUser at hnone ⊢
    rw [List.find?_append, hnone, Option.none_or, List.find?_cons]
    simp
  refine ⟨?_, ?_, ?_⟩
  · rw [hhyd1]
    dsimp only
    rw [List.countP_append]
    have h0 : db.members.countP
        (fun r => r.user_id == userId && r.organization_id == org.id) = 0 := by
      rw [List.countP_eq_zero]
      intro r hr
      simp [hnouser r hr]
    rw [h0]
    simp [List.countP_cons]
  · rw [hhyd1]
  · rw [hhyd1]
    dsimp only
    unfold hydrateMembership
    rw [hfetch2]

/-- An `organizations` row owned by user `u1` with no membership row. -/
def legacyOrgDb : AuthDb :=
  { organizations := [{ id := "org1", user_id := "u1", name := "Lex" }]
    members := [] }

/-- C7 witness: the synthesis theorem evaluated on the concrete legacy
store. -/
theorem c7_membership_synthesis_idempotent_witness :
    fetchMembershipForUser legacyOrgDb.members "u1" = none ∧
    legacyOrgDb.organizations.find? (fun o => o.user_id == "u1") =
      some { id := "org1", user_id := "u1", name := "Lex" } ∧
    ((hydrateMembership legacyOrgDb "u1" "m1").1.members.countP
        (fun r => r.user_id == "u1" && r.organization_id == "org1") = 1) ∧
    hydrateMembership (hydrateMembership legacyOrgDb "u1" "m1").1 "u1" "m2" =
      ((hydrateMembership legacyOrgDb "u1" "m1").1,
       { organization := some "org1", memberRole := some Role.org_admin
         branchOfficeId := none }) :=
  ⟨rfl, rfl,
    (c7_membership_synthesis_idempotent legacyOrgDb "u1" "m1" "m2"
      { id := "org1", user_id := "u1", name := "Lex" } rfl rfl).1,
    (c7_membership_synthesis_idempotent legacyOrgDb "u1" "m1" "m2"
      { id := "org1", user_id := "u1", name := "Lex" } rfl rfl).2.2⟩
